import Mathlib

/-!
Verification of a household financial-projection engine.

The development shallowly embeds the engine's data model and operations:
instrument formulas (`asset.py`, `liability.py`, `cash_flow.py`), the
aggregating collections (`balance_sheet.py`, `cash_flow.py`), life events
(`life_event.py`) and the projection orchestrator (`financial_model.py`).
Monetary amounts and rates are embedded as rationals (`ℚ`), calendar years as
integers (`ℤ`); Python's in-place list mutation is embedded as explicit state
passing returning updated values.
-/

namespace FinModel

/-! ## Assets (src/asset.py) -/

/-- `Savings` dataclass: compound interest plus a level annual contribution. -/
structure Savings where
  initial_value : ℚ
  start_year : ℤ
  interest_rate : ℚ := 1/20
  annual_contribution : ℚ := 0

/-- `Savings.predict`: future value of principal plus an ordinary annuity of
contributions, 0 before `start_year`. -/
def Savings.predict (a : Savings) (target_year : ℤ) : ℚ :=
  if target_year < a.start_year then 0
  else
    let time : ℕ := (target_year - a.start_year).toNat
    let rate : ℚ := a.interest_rate
    let fv_principal := a.initial_value * (1 + rate) ^ time
    let fv_contrib :=
      if rate = 0 then a.annual_contribution * (time : ℚ)
      else a.annual_contribution * (((1 + rate) ^ time - 1) / rate)
    fv_principal + fv_contrib

/-- `ManagedFund` dataclass: gross return net of management and performance
fees, plus a level annual contribution. -/
structure ManagedFund where
  initial_value : ℚ
  start_year : ℤ
  gross_return_rate : ℚ := 7/100
  management_fee_rate : ℚ := 8/1000
  performance_fee_rate : ℚ := 0
  annual_contribution : ℚ := 0

/-- `ManagedFund.net_rate`: `(1+gross)*(1-fees) - 1`. -/
def ManagedFund.net_rate (a : ManagedFund) : ℚ :=
  (1 + a.gross_return_rate) * (1 - (a.management_fee_rate + a.performance_fee_rate)) - 1

/-- `ManagedFund.predict`. -/
def ManagedFund.predict (a : ManagedFund) (target_year : ℤ) : ℚ :=
  if target_year < a.start_year then 0
  else
    let time : ℕ := (target_year - a.start_year).toNat
    let rate : ℚ := a.net_rate
    let fv_principal := a.initial_value * (1 + rate) ^ time
    let fv_contrib :=
      if rate = 0 then a.annual_contribution * (time : ℚ)
      else a.annual_contribution * (((1 + rate) ^ time - 1) / rate)
    fv_principal + fv_contrib

/-- `Shares` dataclass: growth plus optionally reinvested dividends. -/
structure Shares where
  initial_value : ℚ
  start_year : ℤ
  annual_growth_rate : ℚ := 7/100
  dividend_yield : ℚ := 3/100
  annual_contribution : ℚ := 0
  reinvest_dividends : Bool := true

/-- `Shares.predict`. -/
def Shares.predict (a : Shares) (target_year : ℤ) : ℚ :=
  if target_year < a.start_year then 0
  else
    let time : ℕ := (target_year - a.start_year).toNat
    let effective_rate : ℚ :=
      a.annual_growth_rate + (if a.reinvest_dividends then a.dividend_yield else 0)
    let fv_principal := a.initial_value * (1 + effective_rate) ^ time
    let fv_contrib :=
      if effective_rate = 0 then a.annual_contribution * (time : ℚ)
      else a.annual_contribution * (((1 + effective_rate) ^ time - 1) / effective_rate)
    fv_principal + fv_contrib

/-- `Property` dataclass: pure appreciation, no contribution. -/
structure Property where
  initial_value : ℚ
  start_year : ℤ
  annual_appreciation : ℚ := 35/1000

/-- `Property.predict`. -/
def Property.predict (a : Property) (target_year : ℤ) : ℚ :=
  if target_year < a.start_year then 0
  else a.initial_value * (1 + a.annual_appreciation) ^ (target_year - a.start_year).toNat

/-- `Superannuation` dataclass: iterative balance with salary-indexed employer
contributions and taxed concessional contributions. -/
structure Superannuation where
  initial_value : ℚ
  start_year : ℤ
  salary : ℚ
  gross_return_rate : ℚ := 7/100
  fee_rate : ℚ := 8/1000
  salary_growth : ℚ := 3/100
  employer_sg_rate : ℚ := 11/100
  personal_contribution : ℚ := 0
  personal_indexation : ℚ := 0
  contribution_tax_rate : ℚ := 15/100

/-- `Superannuation.net_investment_rate`: `(1+gross)*(1-fee) - 1`. -/
def Superannuation.net_investment_rate (a : Superannuation) : ℚ :=
  (1 + a.gross_return_rate) * (1 - a.fee_rate) - 1

/-- The `for` loop inside `Superannuation.predict`: each year grow the balance
by the net investment rate, add the net contribution, then index the salary and
the personal contribution. -/
def Superannuation.loop (a : Superannuation) :
    ℕ → ℚ → ℚ → ℚ → ℚ
  | 0, balance, _, _ => balance
  | years + 1, balance, curr_salary, curr_personal =>
      let balance := balance * (1 + a.net_investment_rate)
      let employer := curr_salary * a.employer_sg_rate
      let contrib_gross := employer + curr_personal
      let contrib_net := contrib_gross * (1 - a.contribution_tax_rate)
      a.loop years (balance + contrib_net)
        (curr_salary * (1 + a.salary_growth)) (curr_personal * (1 + a.personal_indexation))

/-- `Superannuation.predict`. -/
def Superannuation.predict (a : Superannuation) (target_year : ℤ) : ℚ :=
  if target_year < a.start_year then 0
  else a.loop (target_year - a.start_year).toNat a.initial_value a.salary a.personal_contribution

/-- `LifestyleAsset` dataclass: pure depreciation. -/
structure LifestyleAsset where
  initial_value : ℚ
  start_year : ℤ
  depreciation_rate : ℚ := 15/100

/-- `LifestyleAsset.predict`. -/
def LifestyleAsset.predict (a : LifestyleAsset) (target_year : ℤ) : ℚ :=
  if target_year < a.start_year then 0
  else a.initial_value * (1 - a.depreciation_rate) ^ (target_year - a.start_year).toNat

/-! ## Liabilities (src/liability.py) -/

/-- `HomeLoan` dataclass: amortising loan with a fixed rate and term. -/
structure HomeLoan where
  initial_value : ℚ
  start_year : ℤ
  interest_rate : ℚ
  term_years : ℤ

/-- `HomeLoan.annual_payment`: `PMT = P*r/(1-(1+r)^-n)`, `P/n` when `r = 0`,
and 0 when the term or principal is non-positive. -/
def HomeLoan.annual_payment (l : HomeLoan) : ℚ :=
  if l.term_years ≤ 0 ∨ l.initial_value ≤ 0 then 0
  else if l.interest_rate = 0 then l.initial_value / (l.term_years : ℚ)
  else (l.initial_value * l.interest_rate) / (1 - (1 + l.interest_rate) ^ (-l.term_years))

/-- `HomeLoan.predict`: remaining balance after `k = target_year - start_year + 1`
payments, clamped to 0 and forced to 0 once `k ≥ term_years`. -/
def HomeLoan.predict (l : HomeLoan) (target_year : ℤ) : ℚ :=
  if target_year < l.start_year then 0
  else
    let k : ℤ := target_year - l.start_year + 1
    if k ≥ l.term_years then 0
    else
      let pmt := l.annual_payment
      if l.interest_rate = 0 then max 0 (l.initial_value - pmt * (k : ℚ))
      else
        let growth := (1 + l.interest_rate) ^ k
        max 0 (l.initial_value * growth - pmt * ((growth - 1) / l.interest_rate))

/-- `OtherLiability` dataclass: generic interest-bearing debt with a fixed
annual repayment. -/
structure OtherLiability where
  initial_value : ℚ
  start_year : ℤ
  interest_rate : ℚ := 0
  annual_repayment : ℚ := 0

/-- The `for` loop inside `OtherLiability.predict`: each year multiply the
balance by `(1+rate)`, subtract the repayment, and return 0 permanently once
the balance drops to `≤ 0`. -/
def OtherLiability.loop (l : OtherLiability) : ℕ → ℚ → ℚ
  | 0, balance => balance
  | years + 1, balance =>
      let b := balance * (1 + l.interest_rate) - l.annual_repayment
      if b ≤ 0 then 0 else l.loop years b

/-- `OtherLiability.predict`. -/
def OtherLiability.predict (l : OtherLiability) (target_year : ℤ) : ℚ :=
  if target_year < l.start_year then 0
  else l.loop (target_year - l.start_year).toNat l.initial_value

/-! ## Incomes, expenses and the cash flow (src/cash_flow.py) -/

/-- `Income` dataclass: a growing income stream over an inclusive year window
(open-ended when `end_year` is unset). -/
structure Income where
  name : String
  amount : ℚ
  annual_rate : ℚ
  start_year : ℤ
  end_year : Option ℤ := none

/-- `Income.is_active`: the inclusive window check. -/
def Income.is_active (i : Income) (year : ℤ) : Bool :=
  if year < i.start_year then false
  else
    match i.end_year with
    | some e => if year > e then false else true
    | none => true

/-- `Income.predict`: `amount * (1+rate)^(target-start)` while active, else 0. -/
def Income.predict (i : Income) (target_year : ℤ) : ℚ :=
  if ¬ i.is_active target_year then 0
  else i.amount * (1 + i.annual_rate) ^ (target_year - i.start_year).toNat

/-- `Expense` dataclass: a growing expense stream over an inclusive year window. -/
structure Expense where
  name : String
  amount : ℚ
  start_year : ℤ
  annual_rate : ℚ := 2/100
  end_year : Option ℤ := none

/-- `Expense.is_active`: the inclusive window check. -/
def Expense.is_active (e : Expense) (year : ℤ) : Bool :=
  if year < e.start_year then false
  else
    match e.end_year with
    | some y => if year > y then false else true
    | none => true

/-- `Expense.predict`: `amount * (1+rate)^(target-start)` while active, else 0. -/
def Expense.predict (e : Expense) (target_year : ℤ) : ℚ :=
  if ¬ e.is_active target_year then 0
  else e.amount * (1 + e.annual_rate) ^ (target_year - e.start_year).toNat

/-- `CashFlow` dataclass: ordered lists of incomes and expenses. -/
structure CashFlow where
  incomes : List Income := []
  expenses : List Expense := []

/-- `CashFlow.inflow`: sum of income predictions. -/
def CashFlow.inflow (c : CashFlow) (target_year : ℤ) : ℚ :=
  (c.incomes.map (fun i => i.predict target_year)).sum

/-- `CashFlow.outflow`: sum of expense predictions. -/
def CashFlow.outflow (c : CashFlow) (target_year : ℤ) : ℚ :=
  (c.expenses.map (fun e => e.predict target_year)).sum

/-- One record of `CashFlow.project`'s output. -/
structure CFRecord where
  year : ℤ
  inflow : ℚ
  outflow : ℚ
  net_flow : ℚ

/-- Python's `range(start_year, end_year + 1)`: the years of a projection,
empty when `end_year < start_year`. -/
def yearRange (start_year end_year : ℤ) : List ℤ :=
  (List.range (end_year + 1 - start_year).toNat).map (fun i => start_year + (i : ℤ))

/-- `CashFlow.project`: one record per year of the inclusive range. -/
def CashFlow.project (c : CashFlow) (start_year end_year : ℤ) : List CFRecord :=
  (yearRange start_year end_year).map (fun year =>
    let inflow := c.inflow year
    let outflow := c.outflow year
    { year := year, inflow := inflow, outflow := outflow, net_flow := inflow - outflow })

/-! ## The balance sheet (src/balance_sheet.py)

`BalanceSheet` aggregates the asset and liability instruments; the instruments
it holds at runtime are the `asset.py` and `liability.py` variants, so the
element types are closed sums over those variants. -/

/-- The asset variants a `BalanceSheet` holds. -/
inductive Asset where
  | savings : Savings → Asset
  | managedFund : ManagedFund → Asset
  | shares : Shares → Asset
  | property : Property → Asset
  | superannuation : Superannuation → Asset
  | lifestyleAsset : LifestyleAsset → Asset

/-- Dispatch of `predict` over the asset variants. -/
def Asset.predict : Asset → ℤ → ℚ
  | savings a, y => a.predict y
  | managedFund a, y => a.predict y
  | shares a, y => a.predict y
  | property a, y => a.predict y
  | superannuation a, y => a.predict y
  | lifestyleAsset a, y => a.predict y

/-- The liability variants a `BalanceSheet` holds. -/
inductive Liability where
  | homeLoan : HomeLoan → Liability
  | otherLiability : OtherLiability → Liability

/-- Dispatch of `predict` over the liability variants. -/
def Liability.predict : Liability → ℤ → ℚ
  | homeLoan l, y => l.predict y
  | otherLiability l, y => l.predict y

/-- `BalanceSheet` dataclass: ordered lists of assets and liabilities. -/
structure BalanceSheet where
  assets : List Asset := []
  liabilities : List Liability := []

/-- `BalanceSheet.total_assets`. -/
def BalanceSheet.total_assets (b : BalanceSheet) (target_year : ℤ) : ℚ :=
  (b.assets.map (fun a => a.predict target_year)).sum

/-- `BalanceSheet.total_liabilities`. -/
def BalanceSheet.total_liabilities (b : BalanceSheet) (target_year : ℤ) : ℚ :=
  (b.liabilities.map (fun l => l.predict target_year)).sum

/-- `BalanceSheet.net_worth`: assets minus liabilities. -/
def BalanceSheet.net_worth (b : BalanceSheet) (target_year : ℤ) : ℚ :=
  b.total_assets target_year - b.total_liabilities target_year

/-- One record of `BalanceSheet.project`'s output. -/
structure BSRecord where
  year : ℤ
  total_assets : ℚ
  total_liabilities : ℚ
  net_worth : ℚ

/-- `BalanceSheet.project`: one record per year of the inclusive range. -/
def BalanceSheet.project (b : BalanceSheet) (start_year end_year : ℤ) : List BSRecord :=
  (yearRange start_year end_year).map (fun year =>
    { year := year, total_assets := b.total_assets year,
      total_liabilities := b.total_liabilities year, net_worth := b.net_worth year })

/-! ## Life events (src/life_event.py)

Python's `apply` mutates the given balance sheet and cash flow in place by
appending derived instruments; the embedding passes the state explicitly and
returns the updated pair. -/

/-- `HomePurchase` event dataclass. -/
structure HomePurchase where
  start_year : ℤ
  name : String
  purchase_price : ℚ
  appreciation_rate : ℚ
  mortgage_rate : ℚ
  mortgage_term_years : ℤ
  deposit : ℚ := 0
  maintenance_cost : ℚ := 0
  maintenance_growth : ℚ := 2/100

/-- `HomePurchase.apply`: appends the property asset, then conditionally the
deposit expense, the mortgage liability with its repayment expense, and the
maintenance expense. -/
def HomePurchase.apply (ev : HomePurchase) (balance_sheet : BalanceSheet)
    (cash_flow : CashFlow) : BalanceSheet × CashFlow :=
  let balance_sheet :=
    { balance_sheet with assets := balance_sheet.assets ++
        [Asset.property { initial_value := ev.purchase_price,
                          start_year := ev.start_year,
                          annual_appreciation := ev.appreciation_rate }] }
  let cash_flow :=
    if ev.deposit > 0 then
      { cash_flow with expenses := cash_flow.expenses ++
          [{ name := "Deposit", amount := ev.deposit, start_year := ev.start_year,
              end_year := some ev.start_year }] }
    else cash_flow
  let loan_amount := max (ev.purchase_price - ev.deposit) 0
  let home_loan : HomeLoan :=
    { initial_value := loan_amount, start_year := ev.start_year,
      interest_rate := ev.mortgage_rate, term_years := ev.mortgage_term_years }
  let balance_sheet :=
    if loan_amount > 0 then
      { balance_sheet with liabilities :=
          balance_sheet.liabilities ++ [Liability.homeLoan home_loan] }
    else balance_sheet
  let cash_flow :=
    if loan_amount > 0 then
      { cash_flow with expenses := cash_flow.expenses ++
          [{ name := "Mortgage repayment", amount := home_loan.annual_payment,
              start_year := ev.start_year, annual_rate := 0,
              end_year := some (ev.start_year + ev.mortgage_term_years - 1) }] }
    else cash_flow
  if ev.maintenance_cost > 0 then
    (balance_sheet,
      { cash_flow with expenses := cash_flow.expenses ++
          [{ name := "Property maintenance", amount := ev.maintenance_cost,
              start_year := ev.start_year, annual_rate := ev.maintenance_growth }] })
  else (balance_sheet, cash_flow)

/-- `ChildBirth` event dataclass. -/
structure ChildBirth where
  start_year : ℤ
  name : String
  annual_cost : ℚ
  years_of_expense : ℤ
  expense_growth : ℚ := 3/100

/-- `ChildBirth.apply`: appends one growing expense spanning
`years_of_expense` years (clamped to one year). -/
def ChildBirth.apply (ev : ChildBirth) (balance_sheet : BalanceSheet)
    (cash_flow : CashFlow) : BalanceSheet × CashFlow :=
  let end_year := ev.start_year + max (ev.years_of_expense - 1) 0
  (balance_sheet,
    { cash_flow with expenses := cash_flow.expenses ++
        [{ name := "Child related expenses", amount := ev.annual_cost,
            start_year := ev.start_year, annual_rate := ev.expense_growth,
            end_year := some end_year }] })

/-- `Inheritance` event dataclass. -/
structure Inheritance where
  start_year : ℤ
  name : String
  amount : ℚ
  savings_interest_rate : ℚ := 4/100
  add_to_cash_flow : Bool := true

/-- `Inheritance.apply`: appends a savings asset, and by default a one-year
flat income making the inflow visible in the event's year. -/
def Inheritance.apply (ev : Inheritance) (balance_sheet : BalanceSheet)
    (cash_flow : CashFlow) : BalanceSheet × CashFlow :=
  let balance_sheet :=
    { balance_sheet with assets := balance_sheet.assets ++
        [Asset.savings { initial_value := ev.amount,
                         start_year := ev.start_year,
                         interest_rate := ev.savings_interest_rate,
                         annual_contribution := 0 }] }
  if ev.add_to_cash_flow then
    (balance_sheet,
      { cash_flow with incomes := cash_flow.incomes ++
          [{ name := "Inheritance", amount := ev.amount, annual_rate := 0,
              start_year := ev.start_year, end_year := some ev.start_year }] })
  else (balance_sheet, cash_flow)

/-- The life-event variants. -/
inductive LifeEvent where
  | homePurchase : HomePurchase → LifeEvent
  | childBirth : ChildBirth → LifeEvent
  | inheritance : Inheritance → LifeEvent

/-- The `start_year` field shared by all event variants. -/
def LifeEvent.start_year : LifeEvent → ℤ
  | homePurchase ev => ev.start_year
  | childBirth ev => ev.start_year
  | inheritance ev => ev.start_year

/-- Dispatch of `apply` over the event variants. -/
def LifeEvent.apply : LifeEvent → BalanceSheet → CashFlow → BalanceSheet × CashFlow
  | homePurchase ev, bs, cf => ev.apply bs cf
  | childBirth ev, bs, cf => ev.apply bs cf
  | inheritance ev, bs, cf => ev.apply bs cf

/-! ## The orchestrator (src/financial_model.py) -/

/-- `FinancialModel` dataclass: the base state and the event list. -/
structure FinancialModel where
  balance_sheet : BalanceSheet
  cash_flow : CashFlow
  events : List LifeEvent := []

/-- The sort key of `sorted(self.events, key=lambda e: e.start_year)`. -/
def eventLE (a b : LifeEvent) : Bool := a.start_year ≤ b.start_year

/-- `FinancialModel._components_with_events`: deep-copies the base balance
sheet and cash flow (value copies here), then iterates over the events sorted
ascending by `start_year`, skipping any event with `start_year > end_year` and
applying every other event to the working copies while recording it in
`active_events`. -/
def FinancialModel.components_with_events (m : FinancialModel)
    (start_year end_year : ℤ) : BalanceSheet × CashFlow × List LifeEvent :=
  let balance_sheet := m.balance_sheet
  let cash_flow := m.cash_flow
  (m.events.mergeSort eventLE).foldl
    (fun acc event =>
      if event.start_year > end_year then acc
      else
        ((event.apply acc.1 acc.2.1).1, (event.apply acc.1 acc.2.1).2,
          acc.2.2 ++ [event]))
    (balance_sheet, cash_flow, [])

/-- The data-preparation step of `FinancialModel.plot`: the two projections
are loaded into data frames and merged on the `year` column before the
`df.empty` early return. A frame built from an empty projection has no `year`
column, so when either projection is empty the merge raises `KeyError` and
`plot` never returns; with non-empty projections the merge succeeds and the
rest of `plot` is rendering only. -/
def plotMergeCheck (bs_projection : List BSRecord) (cf_projection : List CFRecord) :
    Except String Unit :=
  if bs_projection.isEmpty || cf_projection.isEmpty then Except.error "KeyError: year"
  else Except.ok ()

/-- `FinancialModel.model`: projects the working balance sheet and cash flow
over the inclusive range and hands both projections to `plot` before
returning them. `plot`'s merge fails on empty projections, so that failure
propagates out of `model` instead of a result (the rendering that follows a
successful merge is presentation and has no further data-dependent effect). -/
def FinancialModel.model (m : FinancialModel) (start_year end_year : ℤ) :
    Except String (List BSRecord × List CFRecord) :=
  let components := m.components_with_events start_year end_year
  let bs_projection := components.1.project start_year end_year
  let cf_projection := components.2.1.project start_year end_year
  match plotMergeCheck bs_projection cf_projection with
  | Except.error e => Except.error e
  | Except.ok _ => Except.ok (bs_projection, cf_projection)

/-- `FinancialModel.model` together with the state of the base model after the
call: the source deep-copies `self.balance_sheet` and `self.cash_flow` before
any event is applied and never rebinds `self`'s fields, so the caller's base
model is returned unchanged. -/
def FinancialModel.modelRun (m : FinancialModel) (start_year end_year : ℤ) :
    Except String (List BSRecord × List CFRecord) × FinancialModel :=
  (m.model start_year end_year, m)

/-- The events `_components_with_events` applies, in application order: the
stable sort of the event list by `start_year`, with the events past
`end_year` skipped. -/
def applied_events (m : FinancialModel) (end_year : ℤ) : List LifeEvent :=
  (m.events.mergeSort eventLE).filter (fun ev => ev.start_year ≤ end_year)

/-- Sequential application of a list of events to a working state, in list
order. -/
def apply_all (events : List LifeEvent) (bs : BalanceSheet) (cf : CashFlow) :
    BalanceSheet × CashFlow :=
  events.foldl (fun acc ev => ev.apply acc.1 acc.2) (bs, cf)

/-! ## Concrete scenario instruments -/

/-- The spec's home-loan scenario: `HomeLoan(500_000, 0.05, 30, 2025)`. -/
def homeLoanScenario : HomeLoan :=
  { initial_value := 500000, start_year := 2025, interest_rate := 1/20, term_years := 30 }

/-- The spec's expense scenario: `Expense(amount=100_000, start_year=2027,
end_year=2027)` with the default growth rate. -/
def expenseScenario : Expense :=
  { name := "Vacation Expenses", amount := 100000, start_year := 2027, end_year := some 2027 }

/-- The spec's home-purchase scenario event. -/
def homePurchaseScenario : HomePurchase :=
  { start_year := 2030, name := "First Home Purchase", purchase_price := 2000000,
    appreciation_rate := 35/1000, mortgage_rate := 45/1000, mortgage_term_years := 30,
    deposit := 120000, maintenance_cost := 3500 }

/-- The mortgage the home-purchase scenario derives. -/
def scenarioLoan : HomeLoan :=
  { initial_value := 1880000, start_year := 2030, interest_rate := 45/1000, term_years := 30 }

/-- An `OtherLiability` whose initial balance is negative. -/
def negativeOtherLiability : OtherLiability :=
  { initial_value := -5, start_year := 2025 }

/-- A savings account with a zero interest rate. -/
def savingsZeroRate : Savings :=
  { initial_value := 1000, start_year := 2025, interest_rate := 0, annual_contribution := 200 }

/-- A home loan with a zero interest rate. -/
def homeLoanZeroRate : HomeLoan :=
  { initial_value := 500, start_year := 2025, interest_rate := 0, term_years := 10 }

/-! ## Theorems -/

/-- An inclusive projection range with `end_year < start_year` holds no years. -/
theorem yearRange_eq_nil (start_year end_year : ℤ) (h : end_year < start_year) :
    yearRange start_year end_year = [] := by
  unfold yearRange
  have h0 : (end_year + 1 - start_year).toNat = 0 := by omega
  rw [h0]
  rfl

/-- C2, counterexample: with `end_year < start_year` the two `project` calls
are not rejected; each returns normally with an empty projection list. -/
theorem invalid_range_not_rejected :
    (BalanceSheet.mk [] []).project 2030 2025 = [] ∧
      (CashFlow.mk [] []).project 2030 2025 = [] := by
  refine ⟨?_, ?_⟩ <;>
    simp [BalanceSheet.project, CashFlow.project, yearRange_eq_nil 2030 2025 (by norm_num)]

/-- C2, amended: with `end_year < start_year`, `BalanceSheet.project` and
`CashFlow.project` return normally with an empty projection list (no failure
is reported, no partial output is produced), while `FinancialModel.model`
does fail before returning anything — not by range validation, but because
the empty projections reach `plot`, whose merge on the missing `year` column
raises. -/
theorem invalid_range_empty_projection (bs : BalanceSheet) (cf : CashFlow)
    (m : FinancialModel) (start_year end_year : ℤ) (h : end_year < start_year) :
    bs.project start_year end_year = [] ∧ cf.project start_year end_year = [] ∧
      m.model start_year end_year = Except.error "KeyError: year" := by
  have h0 := yearRange_eq_nil start_year end_year h
  refine ⟨?_, ?_, ?_⟩ <;>
    simp [BalanceSheet.project, CashFlow.project, FinancialModel.model, plotMergeCheck, h0]

/-- C2, witness: the amended statement at an empty balance sheet, cash flow
and model over the reversed range 2030..2025. -/
theorem invalid_range_empty_projection_witness :
    (2025 : ℤ) < 2030 ∧
      ((BalanceSheet.mk [] []).project 2030 2025 = [] ∧
        (CashFlow.mk [] []).project 2030 2025 = [] ∧
        (FinancialModel.mk (BalanceSheet.mk [] []) (CashFlow.mk [] []) []).model 2030 2025 =
          Except.error "KeyError: year") :=
  ⟨by norm_num,
    invalid_range_empty_projection (BalanceSheet.mk [] []) (CashFlow.mk [] [])
      (FinancialModel.mk (BalanceSheet.mk [] []) (CashFlow.mk [] []) []) 2030 2025
      (by norm_num)⟩

/-- C4: every asset variant predicts `initial_value` at `start_year` and 0 at
every year strictly before `start_year`. -/
theorem asset_inception_values :
    (∀ a : Savings, a.predict a.start_year = a.initial_value ∧
        ∀ y : ℤ, y < a.start_year → a.predict y = 0) ∧
      (∀ a : ManagedFund, a.predict a.start_year = a.initial_value ∧
        ∀ y : ℤ, y < a.start_year → a.predict y = 0) ∧
      (∀ a : Shares, a.predict a.start_year = a.initial_value ∧
        ∀ y : ℤ, y < a.start_year → a.predict y = 0) ∧
      (∀ a : Property, a.predict a.start_year = a.initial_value ∧
        ∀ y : ℤ, y < a.start_year → a.predict y = 0) ∧
      (∀ a : Superannuation, a.predict a.start_year = a.initial_value ∧
        ∀ y : ℤ, y < a.start_year → a.predict y = 0) ∧
      (∀ a : LifestyleAsset, a.predict a.start_year = a.initial_value ∧
        ∀ y : ℤ, y < a.start_year → a.predict y = 0) := by
  refine ⟨fun a => ⟨?_, fun y hy => ?_⟩, fun a => ⟨?_, fun y hy => ?_⟩,
    fun a => ⟨?_, fun y hy => ?_⟩, fun a => ⟨?_, fun y hy => ?_⟩,
    fun a => ⟨?_, fun y hy => ?_⟩, fun a => ⟨?_, fun y hy => ?_⟩⟩
  · simp only [Savings.predict, lt_irrefl, if_false, sub_self, Int.toNat_zero, pow_zero]
    split_ifs <;> simp
  · simp [Savings.predict, hy]
  · simp only [ManagedFund.predict, lt_irrefl, if_false, sub_self, Int.toNat_zero, pow_zero]
    split_ifs <;> simp
  · simp [ManagedFund.predict, hy]
  · simp only [Shares.predict, lt_irrefl, if_false, sub_self, Int.toNat_zero, pow_zero]
    split_ifs <;> simp
  · simp [Shares.predict, hy]
  · simp [Property.predict]
  · simp [Property.predict, hy]
  · simp [Superannuation.predict, Superannuation.loop]
  · simp [Superannuation.predict, hy]
  · simp [LifestyleAsset.predict]
  · simp [LifestyleAsset.predict, hy]

/-- C4, witness: the inception facts at concrete savings and superannuation
accounts, with the pre-inception year 2000 < 2025. -/
theorem asset_inception_values_witness :
    ((2000 : ℤ) < 2025) ∧
      (Savings.mk 25000 2025 (1/20) 0).predict 2025 = 25000 ∧
      (Savings.mk 25000 2025 (1/20) 0).predict 2000 = 0 ∧
      (Superannuation.mk 12000 2025 80000 (7/100) (8/1000) (3/100) (11/100) 0 0
          (15/100)).predict 2025 = 12000 ∧
      (Superannuation.mk 12000 2025 80000 (7/100) (8/1000) (3/100) (11/100) 0 0
          (15/100)).predict 2000 = 0 :=
  ⟨by norm_num,
    (asset_inception_values.1 (Savings.mk 25000 2025 (1/20) 0)).1,
    (asset_inception_values.1 (Savings.mk 25000 2025 (1/20) 0)).2 2000 (by norm_num),
    (asset_inception_values.2.2.2.2.1 (Superannuation.mk 12000 2025 80000 (7/100)
      (8/1000) (3/100) (11/100) 0 0 (15/100))).1,
    (asset_inception_values.2.2.2.2.1 (Superannuation.mk 12000 2025 80000 (7/100)
      (8/1000) (3/100) (11/100) 0 0 (15/100))).2 2000 (by norm_num)⟩

/-- C5: every growth formula with an effective rate of exactly 0 takes the
additive fallback branch, returning `initial_value + contribution * elapsed`
(pure-growth formulas return `initial_value`), and `HomeLoan`'s zero-rate
payment is `P / n`; no zero-rate division branch is reached. -/
theorem zero_rate_additive :
    (∀ (a : Savings) (y : ℤ), a.interest_rate = 0 → a.start_year ≤ y →
        a.predict y = a.initial_value + a.annual_contribution * ((y - a.start_year : ℤ) : ℚ)) ∧
      (∀ (a : ManagedFund) (y : ℤ), a.net_rate = 0 → a.start_year ≤ y →
        a.predict y = a.initial_value + a.annual_contribution * ((y - a.start_year : ℤ) : ℚ)) ∧
      (∀ (a : Shares) (y : ℤ),
        a.annual_growth_rate + (if a.reinvest_dividends then a.dividend_yield else 0) = 0 →
        a.start_year ≤ y →
        a.predict y = a.initial_value + a.annual_contribution * ((y - a.start_year : ℤ) : ℚ)) ∧
      (∀ (a : Property) (y : ℤ), a.annual_appreciation = 0 → a.start_year ≤ y →
        a.predict y = a.initial_value) ∧
      (∀ (a : LifestyleAsset) (y : ℤ), a.depreciation_rate = 0 → a.start_year ≤ y →
        a.predict y = a.initial_value) ∧
      (∀ l : HomeLoan, l.interest_rate = 0 → 0 < l.term_years → 0 < l.initial_value →
        l.annual_payment = l.initial_value / (l.term_years : ℚ)) := by
  have cast_eq : ∀ s y : ℤ, s ≤ y → (((y - s).toNat : ℚ)) = ((y - s : ℤ) : ℚ) := by
    intro s y h
    exact_mod_cast congrArg (fun n : ℤ => (n : ℚ)) (Int.toNat_of_nonneg (by omega))
  refine ⟨fun a y hr hy => ?_, fun a y hr hy => ?_, fun a y hr hy => ?_,
    fun a y hr hy => ?_, fun a y hr hy => ?_, fun l hr hn hP => ?_⟩
  · simp only [Savings.predict, hr, if_neg (not_lt.mpr hy), add_zero, one_pow, if_pos rfl,
      if_true, mul_one, cast_eq a.start_year y hy]
  · simp only [ManagedFund.predict, hr, if_neg (not_lt.mpr hy), add_zero, one_pow, if_pos rfl,
      if_true, mul_one, cast_eq a.start_year y hy]
  · simp only [Shares.predict, hr, if_neg (not_lt.mpr hy), add_zero, one_pow, if_pos rfl,
      if_true, mul_one, cast_eq a.start_year y hy]
  · simp [Property.predict, hr, if_neg (not_lt.mpr hy)]
  · simp [LifestyleAsset.predict, hr, if_neg (not_lt.mpr hy)]
  · rw [HomeLoan.annual_payment, if_neg (not_or.mpr ⟨not_le.mpr hn, not_le.mpr hP⟩),
      if_pos hr]

/-- C5, witness: the additive fallback at a zero-rate savings account and the
`P / n` payment at a zero-rate home loan. -/
theorem zero_rate_additive_witness :
    (savingsZeroRate.interest_rate = 0 ∧ (2025 : ℤ) ≤ 2030) ∧
      savingsZeroRate.predict 2030 = 1000 + 200 * ((2030 - 2025 : ℤ) : ℚ) ∧
      (homeLoanZeroRate.interest_rate = 0 ∧ 0 < homeLoanZeroRate.term_years ∧
        0 < homeLoanZeroRate.initial_value) ∧
      homeLoanZeroRate.annual_payment = homeLoanZeroRate.initial_value /
        ((homeLoanZeroRate.term_years : ℤ) : ℚ) :=
  ⟨⟨rfl, by norm_num⟩,
    zero_rate_additive.1 savingsZeroRate 2030 rfl (by norm_num [savingsZeroRate]),
    ⟨rfl, by norm_num [homeLoanZeroRate], by norm_num [homeLoanZeroRate]⟩,
    zero_rate_additive.2.2.2.2.2 homeLoanZeroRate rfl (by norm_num [homeLoanZeroRate])
      (by norm_num [homeLoanZeroRate])⟩

/-- C7: incomes and expenses predict `amount * (1+rate)^(target-start)` inside
the inclusive active window (open-ended when `end_year` is unset) and 0
outside it; the one-year expense scenario takes 0, 100000, 0 at 2026..2028. -/
theorem income_expense_window :
    (∀ (i : Income) (y : ℤ), i.start_year ≤ y →
        (i.end_year = none ∨ ∃ e, i.end_year = some e ∧ y ≤ e) →
        i.predict y = i.amount * (1 + i.annual_rate) ^ (y - i.start_year).toNat) ∧
      (∀ (i : Income) (y : ℤ),
        (y < i.start_year ∨ ∃ e, i.end_year = some e ∧ e < y) → i.predict y = 0) ∧
      (∀ (x : Expense) (y : ℤ), x.start_year ≤ y →
        (x.end_year = none ∨ ∃ e, x.end_year = some e ∧ y ≤ e) →
        x.predict y = x.amount * (1 + x.annual_rate) ^ (y - x.start_year).toNat) ∧
      (∀ (x : Expense) (y : ℤ),
        (y < x.start_year ∨ ∃ e, x.end_year = some e ∧ e < y) → x.predict y = 0) ∧
      expenseScenario.predict 2026 = 0 ∧ expenseScenario.predict 2027 = 100000 ∧
      expenseScenario.predict 2028 = 0 := by
  refine ⟨fun i y hy hw => ?_, fun i y hw => ?_, fun x y hy hw => ?_, fun x y hw => ?_,
    ?_, ?_, ?_⟩
  · have ha : i.is_active y = true := by
      unfold Income.is_active
      rcases hw with h | ⟨e, he, hye⟩
      · simp [h, not_lt.mpr hy]
      · simp [he, not_lt.mpr hy, not_lt.mpr hye]
    simp [Income.predict, ha]
  · have ha : i.is_active y = false := by
      unfold Income.is_active
      rcases hw with h | ⟨e, he, hey⟩
      · simp [h]
      · simp [he]
        intro h
        omega
    simp [Income.predict, ha]
  · have ha : x.is_active y = true := by
      unfold Expense.is_active
      rcases hw with h | ⟨e, he, hye⟩
      · simp [h, not_lt.mpr hy]
      · simp [he, not_lt.mpr hy, not_lt.mpr hye]
    simp [Expense.predict, ha]
  · have ha : x.is_active y = false := by
      unfold Expense.is_active
      rcases hw with h | ⟨e, he, hey⟩
      · simp [h]
      · simp [he]
        intro h
        omega
    simp [Expense.predict, ha]
  · norm_num [Expense.predict, Expense.is_active, expenseScenario]
  · norm_num [Expense.predict, Expense.is_active, expenseScenario]
  · norm_num [Expense.predict, Expense.is_active, expenseScenario]

/-- C7, witness: the window facts at a concrete open-ended income and at the
one-year expense scenario. -/
theorem income_expense_window_witness :
    ((2024 : ℤ) ≤ 2026) ∧
      (Income.mk "Salary" 100000 (7/100) 2024 none).predict 2026 =
        100000 * (1 + 7/100) ^ ((2026 - 2024 : ℤ)).toNat ∧
      (Income.mk "Salary" 100000 (7/100) 2024 none).predict 2020 = 0 ∧
      expenseScenario.predict 2027 =
        expenseScenario.amount *
          (1 + expenseScenario.annual_rate) ^ ((2027 - expenseScenario.start_year : ℤ)).toNat ∧
      expenseScenario.predict 2028 = 0 :=
  ⟨by norm_num,
    income_expense_window.1 (Income.mk "Salary" 100000 (7/100) 2024 none) 2026 (by norm_num)
      (Or.inl rfl),
    income_expense_window.2.1 (Income.mk "Salary" 100000 (7/100) 2024 none) 2020
      (Or.inl (by norm_num)),
    income_expense_window.2.2.1 expenseScenario 2027 (by norm_num [expenseScenario])
      (Or.inr ⟨2027, rfl, by norm_num⟩),
    income_expense_window.2.2.2.1 expenseScenario 2028 (Or.inr ⟨2027, rfl, by norm_num⟩)⟩

/-- C1, counterexample: for the scenario loan `HomeLoan(500_000, 0.05, 30,
2025)` the code returns 0 at 2054 (not a strictly positive balance) and a
post-first-payment balance at 2025 (not 500_000): `predict` counts
`k = target - start + 1` payments and forces 0 once `k ≥ term_years`. -/
theorem homeLoan_payoff_counterexample :
    homeLoanScenario.predict 2054 = 0 ∧ homeLoanScenario.predict 2025 ≠ 500000 := by
  constructor
  · norm_num [HomeLoan.predict, homeLoanScenario]
  · norm_num [HomeLoan.predict, HomeLoan.annual_payment, homeLoanScenario, max_def]

/-- C1, amended: every amortising `HomeLoan` balance is exactly 0 from year
`start_year + term_years - 1` on (one year before the spec's claim, because
`predict` counts `k = target - start + 1` payments and forces 0 once
`k ≥ term_years`); for the scenario loan, `predict 2025` is the balance after
one payment (`525000 - PMT`, not 500000), `predict 2053` is still strictly
positive, and `predict 2054 = predict 2055 = 0`. -/
theorem homeLoan_payoff_amended :
    (∀ l : HomeLoan, l.predict (l.start_year + l.term_years - 1) = 0 ∧
        l.predict (l.start_year + l.term_years) = 0) ∧
      homeLoanScenario.predict 2025 = 525000 - homeLoanScenario.annual_payment ∧
      0 < homeLoanScenario.predict 2053 ∧
      homeLoanScenario.predict 2054 = 0 ∧ homeLoanScenario.predict 2055 = 0 := by
  refine ⟨fun l => ⟨?_, ?_⟩, ?_, ?_, ?_, ?_⟩
  · simp only [HomeLoan.predict]
    split_ifs <;> first | rfl | (exfalso; omega)
  · simp only [HomeLoan.predict]
    split_ifs <;> first | rfl | (exfalso; omega)
  · norm_num [HomeLoan.predict, HomeLoan.annual_payment, homeLoanScenario, max_def]
  · norm_num [HomeLoan.predict, HomeLoan.annual_payment, homeLoanScenario, max_def]
  · norm_num [HomeLoan.predict, homeLoanScenario]
  · norm_num [HomeLoan.predict, homeLoanScenario]

/-- C3: a `model` run returns the base model unchanged (the source deep-copies
the base balance sheet and cash flow and applies events only to the copies),
so a second run with the same range and event set yields identical
balance-sheet and cash-flow projection sequences. -/
theorem model_idempotent_base_unchanged :
    ∀ (m : FinancialModel) (start_year end_year : ℤ),
      (m.modelRun start_year end_year).2 = m ∧
        ((m.modelRun start_year end_year).2.modelRun start_year end_year).1 =
          (m.modelRun start_year end_year).1 :=
  fun _ _ _ => ⟨rfl, rfl⟩

/-- C8: the home-purchase scenario applied to an empty balance sheet and cash
flow appends exactly one property asset of 2_000_000 starting 2030, one home
loan of 1_880_000, one one-year deposit expense of 120_000 at 2030, one flat
mortgage expense equal to the loan's annual payment ending 2059, and one
open-ended growing maintenance expense of 3_500 — and nothing else. -/
theorem homePurchase_scenario_apply :
    homePurchaseScenario.apply { assets := [], liabilities := [] }
        { incomes := [], expenses := [] } =
      ({ assets := [Asset.property { initial_value := 2000000, start_year := 2030,
                                     annual_appreciation := 35/1000 }],
         liabilities := [Liability.homeLoan scenarioLoan] },
       { incomes := [],
         expenses := [{ name := "Deposit", amount := 120000, start_year := 2030,
                        end_year := some 2030 },
                      { name := "Mortgage repayment", amount := scenarioLoan.annual_payment,
                        start_year := 2030, annual_rate := 0, end_year := some 2059 },
                      { name := "Property maintenance", amount := 3500,
                        start_year := 2030 }] }) := by
  norm_num [HomePurchase.apply, homePurchaseScenario, scenarioLoan, max_def]

/-- The event loop of `_components_with_events` as a function of the iterated
list: it applies exactly the events with `start_year ≤ end_year`, in list
order, and records them in order. -/
theorem components_foldl (e : ℤ) (l : List LifeEvent) (bs : BalanceSheet) (cf : CashFlow)
    (acc : List LifeEvent) :
    l.foldl (fun acc event =>
        if event.start_year > e then acc
        else ((event.apply acc.1 acc.2.1).1, (event.apply acc.1 acc.2.1).2,
          acc.2.2 ++ [event]))
      (bs, cf, acc) =
      ((apply_all (l.filter (fun ev => ev.start_year ≤ e)) bs cf).1,
       (apply_all (l.filter (fun ev => ev.start_year ≤ e)) bs cf).2,
       acc ++ l.filter (fun ev => ev.start_year ≤ e)) := by
  induction l generalizing bs cf acc with
  | nil => simp [apply_all]
  | cons x xs ih =>
    rw [List.foldl_cons, List.filter_cons]
    by_cases hx : x.start_year > e
    · rw [if_pos hx, if_neg (by simpa using by omega : ¬ (decide (x.start_year ≤ e) = true))]
      exact ih bs cf acc
    · rw [if_neg hx, if_pos (by simpa using by omega : decide (x.start_year ≤ e) = true)]
      have := ih (x.apply bs cf).1 (x.apply bs cf).2 (acc ++ [x])
      rw [this]
      simp [apply_all]

/-- C6: the events a projection run applies are the event list sorted
ascending by `start_year` with every event past `end_year` excluded entirely:
the applied list is sorted regardless of the input list order, it is a
permutation of the in-range-or-earlier events, and the working balance sheet
and cash flow are exactly the base copies with those events applied in that
order. -/
theorem events_applied_in_order :
    ∀ (m : FinancialModel) (s e : ℤ),
      (m.components_with_events s e).2.2 = applied_events m e ∧
        (applied_events m e).Pairwise (fun a b => a.start_year ≤ b.start_year) ∧
        (applied_events m e).Perm (m.events.filter (fun ev => ev.start_year ≤ e)) ∧
        ((m.components_with_events s e).1, (m.components_with_events s e).2.1) =
          apply_all (applied_events m e) m.balance_sheet m.cash_flow := by
  intro m s e
  have hc : m.components_with_events s e =
      ((apply_all (applied_events m e) m.balance_sheet m.cash_flow).1,
       (apply_all (applied_events m e) m.balance_sheet m.cash_flow).2,
       applied_events m e) := by
    unfold FinancialModel.components_with_events applied_events
    simpa using components_foldl e (m.events.mergeSort eventLE) m.balance_sheet m.cash_flow []
  have htrans : ∀ a b c : LifeEvent, eventLE a b = true → eventLE b c = true →
      eventLE a c = true := by
    intro a b c hab hbc
    simp only [eventLE, decide_eq_true_eq] at hab hbc ⊢
    omega
  have htotal : ∀ a b : LifeEvent, eventLE a b || eventLE b a := by
    intro a b
    simp only [eventLE, Bool.or_eq_true, decide_eq_true_eq]
    omega
  have hpair : (applied_events m e).Pairwise (fun a b => a.start_year ≤ b.start_year) := by
    have hs := List.sorted_mergeSort htrans htotal m.events
    exact (hs.filter (fun ev => decide (ev.start_year ≤ e))).imp
      (fun h => by simpa [eventLE] using h)
  refine ⟨by rw [hc], hpair, ?_, by rw [hc]⟩
  exact (List.mergeSort_perm m.events eventLE).filter (fun ev => decide (ev.start_year ≤ e))

/-- C10: every life event's `apply` only appends new instruments: the assets,
liabilities, incomes and expenses present before the call form an unchanged
initial segment of the result, in their original order. -/
theorem life_event_apply_appends :
    ∀ (ev : LifeEvent) (bs : BalanceSheet) (cf : CashFlow),
      ∃ (as2 : List Asset) (ls2 : List Liability) (is2 : List Income) (es2 : List Expense),
        ev.apply bs cf =
          ({ assets := bs.assets ++ as2, liabilities := bs.liabilities ++ ls2 },
           { incomes := cf.incomes ++ is2, expenses := cf.expenses ++ es2 }) := by
  intro ev bs cf
  cases ev with
  | homePurchase e =>
    simp only [LifeEvent.apply, HomePurchase.apply]
    split_ifs
    · exact ⟨_, _, [], _, by simp; repeat first | apply And.intro | rfl⟩
    · exact ⟨_, _, [], _, by simp; repeat first | apply And.intro | rfl⟩
    · exact ⟨_, [], [], _, by simp; repeat first | apply And.intro | rfl⟩
    · exact ⟨_, [], [], _, by simp; repeat first | apply And.intro | rfl⟩
    · exact ⟨_, _, [], _, by simp; repeat first | apply And.intro | rfl⟩
    · exact ⟨_, _, [], _, by simp; repeat first | apply And.intro | rfl⟩
    · exact ⟨_, [], [], _, by simp; repeat first | apply And.intro | rfl⟩
    · exact ⟨_, [], [], [], by simp; repeat first | apply And.intro | rfl⟩
  | childBirth e =>
    simp only [LifeEvent.apply, ChildBirth.apply]
    exact ⟨[], [], [], _, by simp; repeat first | apply And.intro | rfl⟩
  | inheritance e =>
    simp only [LifeEvent.apply, Inheritance.apply]
    split_ifs
    · exact ⟨_, [], _, [], by simp; repeat first | apply And.intro | rfl⟩
    · exact ⟨_, [], [], [], by simp; repeat first | apply And.intro | rfl⟩

/-- The `OtherLiability` loop never returns a negative balance when started
from a non-negative one. -/
theorem OtherLiability.loop_nonneg (l : OtherLiability) (k : ℕ) (b : ℚ) (hb : 0 ≤ b) :
    0 ≤ l.loop k b := by
  induction k generalizing b with
  | zero => simpa [OtherLiability.loop] using hb
  | succ n ih =>
    simp only [OtherLiability.loop]
    split_ifs with h
    · exact le_refl 0
    · exact ih _ (le_of_lt (not_le.mp h))

/-- Once the `OtherLiability` loop reaches 0, iterating further years keeps it
at 0 (the repayment being non-negative). -/
theorem OtherLiability.loop_zero_stable (l : OtherLiability) (hr : 0 ≤ l.annual_repayment)
    (k m : ℕ) (b : ℚ) (h0 : l.loop k b = 0) : l.loop (k + m) b = 0 := by
  induction k generalizing b m with
  | zero =>
    simp only [OtherLiability.loop] at h0
    subst h0
    cases m with
    | zero => simp [OtherLiability.loop]
    | succ m' =>
      simp only [Nat.zero_add, OtherLiability.loop]
      rw [if_pos (by linarith)]
  | succ n ih =>
    have hsa : n + 1 + m = (n + m) + 1 := by omega
    rw [hsa]
    simp only [OtherLiability.loop] at h0 ⊢
    split_ifs with h
    · rfl
    · rw [if_neg h] at h0
      exact ih m _ h0

/-- The amortising payment is non-negative for a non-negative rate. -/
theorem HomeLoan.annual_payment_nonneg (l : HomeLoan) (hr : 0 ≤ l.interest_rate) :
    0 ≤ l.annual_payment := by
  unfold HomeLoan.annual_payment
  split_ifs with h1 h2
  · exact le_refl 0
  · push_neg at h1
    exact div_nonneg h1.2.le (by exact_mod_cast h1.1.le)
  · push_neg at h1
    have hrpos : 0 < l.interest_rate := lt_of_le_of_ne hr (Ne.symm h2)
    have h1a : (1:ℚ) < 1 + l.interest_rate := by linarith
    have hlt : (1 + l.interest_rate) ^ (-l.term_years) < 1 :=
      zpow_lt_one_of_neg₀ h1a (by omega)
    have hden : 0 < 1 - (1 + l.interest_rate) ^ (-l.term_years) := by linarith
    exact div_nonneg (mul_nonneg h1.2.le hr) hden.le

/-- Once a `HomeLoan` balance prediction hits 0 at or after inception, every
later year also predicts 0: the clamped closed-form balance is
non-increasing once it is non-positive, and past the term it is forced to 0. -/
theorem HomeLoan.predict_zero_stable (l : HomeLoan) (hr : 0 ≤ l.interest_rate)
    (y z : ℤ) (hy : l.start_year ≤ y) (hyz : y ≤ z) (h0 : l.predict y = 0) :
    l.predict z = 0 := by
  have hz : l.start_year ≤ z := le_trans hy hyz
  simp only [HomeLoan.predict] at h0 ⊢
  rw [if_neg (not_lt.mpr hy)] at h0
  rw [if_neg (not_lt.mpr hz)]
  by_cases hkz : z - l.start_year + 1 ≥ l.term_years
  · rw [if_pos hkz]
  · rw [if_neg hkz]
    have hky : ¬ (y - l.start_year + 1 ≥ l.term_years) := by omega
    rw [if_neg hky] at h0
    have hpm : 0 ≤ l.annual_payment := l.annual_payment_nonneg hr
    by_cases hr0 : l.interest_rate = 0
    · rw [if_pos hr0] at h0 ⊢
      rw [max_eq_left_iff] at h0 ⊢
      have hcast : ((y - l.start_year + 1 : ℤ) : ℚ) ≤ ((z - l.start_year + 1 : ℤ) : ℚ) := by
        exact_mod_cast by omega
      nlinarith [mul_le_mul_of_nonneg_left hcast hpm]
    · rw [if_neg hr0] at h0 ⊢
      have hrpos : 0 < l.interest_rate := lt_of_le_of_ne hr (Ne.symm hr0)
      rw [max_eq_left_iff] at h0 ⊢
      have hform : ∀ g : ℚ, l.initial_value * g - l.annual_payment * ((g - 1) / l.interest_rate) =
          g * (l.initial_value - l.annual_payment / l.interest_rate) +
            l.annual_payment / l.interest_rate := by
        intro g
        field_simp
        ring
      rw [hform] at h0 ⊢
      have h1a : (1:ℚ) ≤ 1 + l.interest_rate := by linarith
      have hgy_pos : (0:ℚ) < (1 + l.interest_rate) ^ (y - l.start_year + 1) :=
        zpow_pos (by linarith) _
      have hq : 0 ≤ l.annual_payment / l.interest_rate := div_nonneg hpm hrpos.le
      have hPq : l.initial_value - l.annual_payment / l.interest_rate ≤ 0 := by
        nlinarith
      have hmono : (1 + l.interest_rate) ^ (y - l.start_year + 1) ≤
          (1 + l.interest_rate) ^ (z - l.start_year + 1) :=
        zpow_le_zpow_right₀ h1a (by omega)
      nlinarith [mul_le_mul_of_nonpos_right hmono hPq]

/-- C9, counterexample: an `OtherLiability` with non-negative rate and
repayment but a negative initial balance predicts a negative value at its
start year, so non-negativity fails without an `initial_value ≥ 0`
assumption (the loop runs zero iterations and returns the balance as is). -/
theorem otherLiability_negative_balance_counterexample :
    0 ≤ negativeOtherLiability.interest_rate ∧ 0 ≤ negativeOtherLiability.annual_repayment ∧
      negativeOtherLiability.predict 2025 < 0 := by
  refine ⟨le_refl 0, le_refl 0, ?_⟩
  norm_num [OtherLiability.predict, OtherLiability.loop, negativeOtherLiability]

/-- C9, amended: `HomeLoan.predict` is non-negative for every parameter set;
`OtherLiability.predict` is non-negative once `initial_value ≥ 0` is added to
the claimed `interest_rate ≥ 0` and `annual_repayment ≥ 0`; and for both
liabilities a 0 prediction at a year at or after `start_year` stays 0 at
every later year (no resurrection). -/
theorem liability_nonneg_no_resurrection :
    (∀ (l : HomeLoan) (y : ℤ), 0 ≤ l.predict y) ∧
      (∀ (l : HomeLoan) (y z : ℤ), 0 ≤ l.interest_rate → l.start_year ≤ y → y ≤ z →
        l.predict y = 0 → l.predict z = 0) ∧
      (∀ (l : OtherLiability) (y : ℤ), 0 ≤ l.initial_value → 0 ≤ l.interest_rate →
        0 ≤ l.annual_repayment → 0 ≤ l.predict y) ∧
      (∀ (l : OtherLiability) (y z : ℤ), 0 ≤ l.interest_rate → 0 ≤ l.annual_repayment →
        l.start_year ≤ y → y ≤ z → l.predict y = 0 → l.predict z = 0) := by
  refine ⟨fun l y => ?_, fun l y z hr hy hyz h0 => l.predict_zero_stable hr y z hy hyz h0,
    fun l y h_init hr hrep => ?_, fun l y z hr hrep hy hyz h0 => ?_⟩
  · simp only [HomeLoan.predict]
    split_ifs <;> first | exact le_refl 0 | exact le_max_left 0 _
  · simp only [OtherLiability.predict]
    split_ifs
    · exact le_refl 0
    · exact l.loop_nonneg _ _ h_init
  · have hz : l.start_year ≤ z := le_trans hy hyz
    simp only [OtherLiability.predict] at h0 ⊢
    rw [if_neg (not_lt.mpr hy)] at h0
    rw [if_neg (not_lt.mpr hz)]
    have hkk : (z - l.start_year).toNat =
        (y - l.start_year).toNat + ((z - l.start_year).toNat - (y - l.start_year).toNat) := by
      omega
    rw [hkk]
    exact l.loop_zero_stable hrep _ _ _ h0

/-- C9, witness: the amended statement at the scenario home loan (zero from
2054 on) and at concrete other liabilities (one mid-repayment, one paid off
early at 2026 and still zero at 2030). -/
theorem liability_nonneg_no_resurrection_witness :
    (0 ≤ homeLoanScenario.interest_rate ∧ homeLoanScenario.start_year ≤ 2054 ∧
        (2054 : ℤ) ≤ 2060 ∧ homeLoanScenario.predict 2054 = 0) ∧
      homeLoanScenario.predict 2060 = 0 ∧
      (0 ≤ (OtherLiability.mk 450000 2028 (7/100) 33000).initial_value ∧
        0 ≤ (OtherLiability.mk 450000 2028 (7/100) 33000).interest_rate ∧
        0 ≤ (OtherLiability.mk 450000 2028 (7/100) 33000).annual_repayment) ∧
      0 ≤ (OtherLiability.mk 450000 2028 (7/100) 33000).predict 2030 ∧
      ((OtherLiability.mk 1000 2025 0 2000).start_year ≤ 2026 ∧ (2026 : ℤ) ≤ 2030 ∧
        (OtherLiability.mk 1000 2025 0 2000).predict 2026 = 0) ∧
      (OtherLiability.mk 1000 2025 0 2000).predict 2030 = 0 := by
  have h54 : homeLoanScenario.predict 2054 = 0 := by
    norm_num [HomeLoan.predict, homeLoanScenario]
  have h26 : (OtherLiability.mk 1000 2025 0 2000).predict 2026 = 0 := by
    norm_num [OtherLiability.predict, OtherLiability.loop,
      show ((2026 - 2025 : ℤ)).toNat = 1 by norm_num]
  refine ⟨⟨by norm_num [homeLoanScenario], by norm_num [homeLoanScenario], by norm_num, h54⟩,
    liability_nonneg_no_resurrection.2.1 homeLoanScenario 2054 2060
      (by norm_num [homeLoanScenario]) (by norm_num [homeLoanScenario]) (by norm_num) h54,
    ⟨by norm_num, by norm_num, by norm_num⟩,
    liability_nonneg_no_resurrection.2.2.1 (OtherLiability.mk 450000 2028 (7/100) 33000) 2030
      (by norm_num) (by norm_num) (by norm_num),
    ⟨by norm_num, by norm_num, h26⟩,
    liability_nonneg_no_resurrection.2.2.2 (OtherLiability.mk 1000 2025 0 2000) 2026 2030
      (by norm_num) (by norm_num) (by norm_num) (by norm_num) h26⟩

end FinModel
